import Mathlib

/-!
Shallow embedding of the `astro_engine` package (Swiss Ephemeris chart engine).

Real-valued quantities (ecliptic longitudes, speeds, Julian Days) are modelled
as rationals `ℚ`; Python's float modulus `x % y` (sign of the divisor) is
`pymod`, Python's `int()` truncation is `truncQ`, Python's `round(x, 6)` is
`round6` (round-half-even). The external Swiss Ephemeris provider
(`swe.calc_ut`, `swe.houses`, `swe.julday`) is an opaque `Provider` record;
a NaN longitude from the provider is modelled as `none`. The standard-library
`datetime.fromisoformat` is modelled by a concrete ISO-8601 subset parser.
-/

namespace AstroEngine

/-- `constants.ZODIAC_SIGNS`: the fixed 12-sign ordered list. -/
def ZODIAC_SIGNS : List String :=
  ["Aries", "Taurus", "Gemini", "Cancer",
   "Leo", "Virgo", "Libra", "Scorpio",
   "Sagittarius", "Capricorn", "Aquarius", "Pisces"]

/-- `constants.PLANET_IDS`: the eleven tracked bodies with their Swiss
Ephemeris ids (`swe.SUN = 0`, …, `swe.PLUTO = 9`, `swe.TRUE_NODE = 11`). -/
def PLANET_IDS : List (String × Int) :=
  [("Sun", 0), ("Moon", 1), ("Mercury", 2), ("Venus", 3), ("Mars", 4),
   ("Jupiter", 5), ("Saturn", 6), ("Uranus", 7), ("Neptune", 8),
   ("Pluto", 9), ("TrueNode", 11)]

/-- Python float modulus: `x % y = x - y * floor(x / y)` (sign of divisor). -/
def pymod (x y : ℚ) : ℚ := x - y * (⌊x / y⌋ : ℚ)

/-- Python `int()` conversion of a real: truncation toward zero. -/
def truncQ (x : ℚ) : ℤ := if 0 ≤ x then ⌊x⌋ else -⌊-x⌋

/-- Round-half-even to an integer (Python's `round` tie-breaking). -/
def roundHalfEven (x : ℚ) : ℤ :=
  let f := ⌊x⌋
  let r := x - (f : ℚ)
  if r < 1 / 2 then f
  else if 1 / 2 < r then f + 1
  else if f % 2 = 0 then f else f + 1

/-- Python `round(x, 6)`. -/
def round6 (x : ℚ) : ℚ := (roundHalfEven (x * 1000000) : ℚ) / 1000000

/-- Error taxonomy of `exceptions.py` (plus `keyError`/`parseError` for the
Python runtime errors that are not engine exceptions). -/
inductive EngineError where
  | calculation (msg : String)
  | validation (msg : String)
  | keyError (key : String)
  | parseError (msg : String)
deriving DecidableEq

/-- `models.PlanetPosition`. -/
structure PlanetPosition where
  longitude : ℚ
  sign : String
  degree : ℚ
  retrograde : Bool
deriving DecidableEq

/-- `models.AnglePosition`. -/
structure AnglePosition where
  longitude : ℚ
  sign : String
  degree : ℚ
deriving DecidableEq

/-- `models.ChartMetadata`. -/
structure ChartMetadata where
  ephemeris : String
  calculation_method : String
  julian_day : ℚ
  precision : String
  ephemeris_mode : String
deriving DecidableEq

/-- `models.ChartOutput`. The `planets`/`angles` dicts are association lists
in insertion order; `houses` lists the sign of house `i + 1` at index `i`
(the dict keyed `"1"` … `"12"`). -/
structure ChartOutput where
  planets : List (String × PlanetPosition)
  angles : List (String × AnglePosition)
  houses : List String
  metadata : ChartMetadata
deriving DecidableEq

/-- `engine._longitude_to_sign_degree`: guard the range, then
`sign_index = int(longitude / 30)`, `degree_in_sign = longitude % 30`. -/
def longitude_to_sign_degree (longitude : ℚ) : Except EngineError (String × ℚ) :=
  if 0 ≤ longitude ∧ longitude < 360 then
    .ok (ZODIAC_SIGNS.getD (truncQ (longitude / 30)).toNat "", pymod longitude 30)
  else
    .error (.calculation ("Invalid longitude: must be in [0, 360)"))

/-- A parsed civil timestamp: the Python `datetime` fields the engine reads. -/
structure CivilDateTime where
  year : Nat
  month : Nat
  day : Nat
  hour : Nat
  minute : Nat
  second : Nat
  microsecond : Nat
deriving DecidableEq

/-- Decimal value of a digit list. -/
def digitsVal (ds : List Char) : Nat :=
  ds.foldl (fun a c => a * 10 + (c.toNat - 48)) 0

/-- Read exactly `k` ASCII digits. -/
def readDigits (k : Nat) (cs : List Char) : Option (Nat × List Char) :=
  if (cs.take k).length = k ∧ (cs.take k).all Char.isDigit then
    some (digitsVal (cs.take k), cs.drop k)
  else none

/-- Consume one expected character. -/
def expectChar (c : Char) : List Char → Option (List Char)
  | x :: rest => if x = c then some rest else none
  | [] => none

/-- Gregorian leap-year rule. -/
def isLeapYear (y : Nat) : Bool :=
  y % 4 == 0 && (y % 100 != 0 || y % 400 == 0)

/-- Days in a Gregorian month. -/
def days_in_month (y m : Nat) : Nat :=
  if m = 2 then (if isLeapYear y then 29 else 28)
  else if m = 4 ∨ m = 6 ∨ m = 9 ∨ m = 11 then 30 else 31

/-- Fractional-second digits (1 to 6), scaled to microseconds. -/
def parseFrac (cs : List Char) : Option (Nat × List Char) :=
  let ds := cs.takeWhile Char.isDigit
  if 1 ≤ ds.length ∧ ds.length ≤ 6 then
    some (digitsVal ds * 10 ^ (6 - ds.length), cs.drop ds.length)
  else none

/-- Optional `:SS[.ffffff]` part of a time. -/
def parseSeconds (cs : List Char) : Option (Nat × Nat × List Char) :=
  match cs with
  | ':' :: rest => do
    let (s, cs1) ← readDigits 2 rest
    match cs1 with
    | '.' :: rest2 => do
      let (us, cs2) ← parseFrac rest2
      pure (s, us, cs2)
    | _ => pure (s, 0, cs1)
  | _ => some (0, 0, cs)

/-- `HH:MM[:SS[.ffffff]]` with range checks. -/
def parseTimePart (cs : List Char) : Option (Nat × Nat × Nat × Nat × List Char) := do
  let (h, cs1) ← readDigits 2 cs
  let cs2 ← expectChar ':' cs1
  let (mi, cs3) ← readDigits 2 cs2
  let (s, us, cs4) ← parseSeconds cs3
  if h ≤ 23 ∧ mi ≤ 59 ∧ s ≤ 59 then pure (h, mi, s, us, cs4) else none

/-- Optional trailing UTC offset `±HH:MM` (must end the string). -/
def parseTzPart (cs : List Char) : Option Unit :=
  match cs with
  | [] => some ()
  | c :: rest =>
    if c = '+' ∨ c = '-' then do
      let (oh, cs1) ← readDigits 2 rest
      let cs2 ← expectChar ':' cs1
      let (om, cs3) ← readDigits 2 cs2
      if oh ≤ 23 ∧ om ≤ 59 ∧ cs3 = [] then pure () else none
    else none

/-- Model of the Python standard library `datetime.fromisoformat` on the
ISO-8601 subset `YYYY-MM-DD`, optionally followed by a `T` or space separator,
`HH:MM`, optional seconds and fractional seconds, and an optional UTC offset. -/
def parseIsoChars (cs : List Char) : Option CivilDateTime := do
  let (y, cs1) ← readDigits 4 cs
  let cs2 ← expectChar '-' cs1
  let (m, cs3) ← readDigits 2 cs2
  let cs4 ← expectChar '-' cs3
  let (d, cs5) ← readDigits 2 cs4
  if 1 ≤ m ∧ m ≤ 12 ∧ 1 ≤ d ∧ d ≤ days_in_month y m then
    match cs5 with
    | [] => pure ⟨y, m, d, 0, 0, 0, 0⟩
    | sep :: rest =>
      if sep = 'T' ∨ sep = ' ' then do
        let (h, mi, s, us, cs6) ← parseTimePart rest
        let _ ← parseTzPart cs6
        pure ⟨y, m, d, h, mi, s, us⟩
      else none
  else none

/-- Python `s.replace("Z", "+00:00")` on the character list. -/
def replaceZ : List Char → List Char
  | [] => []
  | c :: rest =>
    if c = 'Z' then '+' :: '0' :: '0' :: ':' :: '0' :: '0' :: replaceZ rest
    else c :: replaceZ rest

/-- Python `s.endswith("Z")`. -/
def endsWithZ (cs : List Char) : Bool := cs.getLast? == some 'Z'

/-- `engine._parse_datetime`: strip a trailing `Z` into an explicit UTC offset,
then parse as ISO-8601. -/
def parse_datetime (s : String) : Option CivilDateTime :=
  if endsWithZ s.data then parseIsoChars (replaceZ s.data)
  else parseIsoChars s.data

/-- `models.ChartInput.validate_datetime`: same parse as the engine, as a
success flag. -/
def validate_datetime (s : String) : Bool :=
  (parse_datetime s).isSome

/-- `models.ChartInput` raw fields (before pydantic validation). -/
structure ChartInput where
  datetime_utc : String
  latitude : ℚ
  longitude : ℚ
  house_system : String
  zodiac : String
  ayanamsa : Option String
deriving DecidableEq

/-- Pydantic validation of `models.ChartInput`: the field range constraints,
the `Literal` fields, and the two field validators. A `ChartInput` reaches
the engine only through this gate. -/
def validate_chart_input (c : ChartInput) : Except String ChartInput :=
  if ¬ (validate_datetime c.datetime_utc) then
    .error ("Invalid datetime format: " ++ c.datetime_utc)
  else if ¬ (-90 ≤ c.latitude ∧ c.latitude ≤ 90) then
    .error ("latitude must be in [-90, 90]")
  else if ¬ (-180 ≤ c.longitude ∧ c.longitude ≤ 180) then
    .error ("longitude must be in [-180, 180]")
  else if c.house_system ≠ "W" then
    .error ("house_system must be the literal W")
  else if c.zodiac ≠ "tropical" then
    .error ("zodiac must be the literal tropical")
  else if c.ayanamsa ≠ none then
    .error ("Sidereal zodiac not supported. ayanamsa must be null.")
  else .ok c

/-- `engine._datetime_to_julian_day`'s fractional hour of day. -/
def hour_decimal (dt : CivilDateTime) : ℚ :=
  (dt.hour : ℚ) + (dt.minute : ℚ) / 60 + (dt.second : ℚ) / 3600 +
    (dt.microsecond : ℚ) / 3600000000

/-- Raw `swe.calc_ut` result: ecliptic longitude (`none` models a NaN float)
and daily speed in longitude. -/
structure RawBody where
  lon : Option ℚ
  speed : ℚ

/-- The external Swiss Ephemeris provider as an opaque record: `swe.julday`,
`swe.calc_ut`, `swe.houses` (returning Ascendant and Midheaven longitudes,
`none` modelling NaN), and the precision mode decided at initialization. -/
structure Provider where
  julday : Nat → Nat → Nat → ℚ → ℚ
  calcBody : ℚ → Int → Except String RawBody
  housesFn : ℚ → ℚ → ℚ → Except String (Option ℚ × Option ℚ)
  mode : String

/-- `engine._initialize_ephemeris`: the precision mode decided from the number
of `.se1` ephemeris files found at the configured path. -/
def ephemeris_mode_of (se1_file_count : Nat) : String :=
  if se1_file_count = 0 then "moshier" else "swiss"

/-- `engine._datetime_to_julian_day`: feed year/month/day and the fractional
hour to the provider's Julian-Day algorithm. -/
def datetime_to_julian_day (julday : Nat → Nat → Nat → ℚ → ℚ)
    (dt : CivilDateTime) : ℚ :=
  julday dt.year dt.month dt.day (hour_decimal dt)

/-- Longitude wraparound of `engine._calculate_planet_position` lines 153-155:
`longitude % 360`, then add `360` if negative. -/
def reduce_longitude (raw : ℚ) : ℚ :=
  let longitude := pymod raw 360
  if longitude < 0 then longitude + 360 else longitude

/-- `engine._calculate_planet_position`: propagate provider failure, reject
NaN, wrap the longitude, decompose into sign and degree, classify retrograde,
round for output. -/
def calculate_planet_position (raw : Except String RawBody)
    (planet_name : String) : Except EngineError PlanetPosition :=
  match raw with
  | .error e =>
    .error (.calculation ("Failed to calculate position for " ++ planet_name ++ ": " ++ e))
  | .ok r =>
    match r.lon with
    | none => .error (.calculation ("NaN longitude returned for " ++ planet_name))
    | some lonRaw =>
      let longitude := reduce_longitude lonRaw
      match longitude_to_sign_degree longitude with
      | .error e => .error e
      | .ok (sign, degree) =>
        .ok ⟨round6 longitude, sign, round6 degree, decide (r.speed < 0)⟩

/-- Whole-Sign house table of `engine._calculate_houses_and_angles`
lines 223-227: index `k` holds the sign of house `k + 1`, at zodiac offset
`(asc_sign_index + house_num - 1) % 12`. -/
def derive_houses (asc_sign : String) : List String :=
  let asc_sign_index := ZODIAC_SIGNS.indexOf asc_sign
  (List.range 12).map
    (fun k => ZODIAC_SIGNS.getD ((asc_sign_index + (k + 1) - 1) % 12) "")

/-- `engine._calculate_houses_and_angles`: propagate provider failure, reject
NaN, wrap both angle longitudes with `% 360`, decompose them, and derive the
Whole-Sign house table from the Ascendant's sign. -/
def calculate_houses_and_angles (raw : Except String (Option ℚ × Option ℚ)) :
    Except EngineError (List (String × AnglePosition) × List String) :=
  match raw with
  | .error e => .error (.calculation ("Failed to calculate houses: " ++ e))
  | .ok (ascOpt, mcOpt) =>
    match ascOpt, mcOpt with
    | some ascRaw, some mcRaw =>
      let asc_longitude := pymod ascRaw 360
      let mc_longitude := pymod mcRaw 360
      match longitude_to_sign_degree asc_longitude with
      | .error e => .error e
      | .ok (asc_sign, asc_degree) =>
        match longitude_to_sign_degree mc_longitude with
        | .error e => .error e
        | .ok (mc_sign, mc_degree) =>
          .ok ([("Ascendant", ⟨round6 asc_longitude, asc_sign, round6 asc_degree⟩),
                ("Midheaven", ⟨round6 mc_longitude, mc_sign, round6 mc_degree⟩)],
               derive_houses asc_sign)
    | _, _ => .error (.calculation ("NaN value returned for Ascendant or Midheaven"))

/-- `engine._validate_output` planet loop: longitude then degree range per
planet, in order. -/
def check_planets : List (String × PlanetPosition) → Except EngineError Unit
  | [] => .ok ()
  | (name, pos) :: rest =>
    if ¬ (0 ≤ pos.longitude ∧ pos.longitude < 360) then
      .error (.validation ("Planet " ++ name ++ " longitude out of range [0, 360)"))
    else if ¬ (0 ≤ pos.degree ∧ pos.degree < 30) then
      .error (.validation ("Planet " ++ name ++ " degree out of range [0, 30)"))
    else check_planets rest

/-- `engine._validate_output` angle loop: longitude range per angle. -/
def check_angles : List (String × AnglePosition) → Except EngineError Unit
  | [] => .ok ()
  | (name, pos) :: rest =>
    if ¬ (0 ≤ pos.longitude ∧ pos.longitude < 360) then
      .error (.validation ("Angle " ++ name ++ " longitude out of range [0, 360)"))
    else check_angles rest

/-- `engine._validate_output` house loop over house numbers `ns`: each house
must carry the sign at cyclic offset `(asc_index + n - 1) % 12`. -/
def check_houses (asc_index : Nat) (houses : List String) :
    List Nat → Except EngineError Unit
  | [] => .ok ()
  | n :: rest =>
    let expected := ZODIAC_SIGNS.getD ((asc_index + n - 1) % 12) ""
    let actual := houses.getD (n - 1) ""
    if expected ≠ actual then
      .error (.validation ("Whole Sign house " ++ toString n ++ " should be " ++
        expected ++ ", got " ++ actual))
    else check_houses asc_index houses rest

/-- `engine._validate_output`: planet ranges, angle ranges, the
Ascendant/House-1 identity, then the independent re-check of the Whole-Sign
cyclic law for houses 1..12. -/
def validate_output (planets : List (String × PlanetPosition))
    (angles : List (String × AnglePosition)) (houses : List String) :
    Except EngineError Unit :=
  match check_planets planets with
  | .error e => .error e
  | .ok _ =>
    match check_angles angles with
    | .error e => .error e
    | .ok _ =>
      match angles.lookup "Ascendant" with
      | none => .error (.keyError "Ascendant")
      | some asc =>
        let house_1_sign := houses.getD 0 ""
        if asc.sign ≠ house_1_sign then
          .error (.validation ("Whole Sign house validation failed: Ascendant is in " ++
            asc.sign ++ " but House 1 is " ++ house_1_sign))
        else
          check_houses (ZODIAC_SIGNS.indexOf asc.sign) houses (List.range' 1 12)

/-- The planet loop of `SwissEphemerisEngine.compute`: one normalized position
per tracked body, in `PLANET_IDS` order, aborting on the first failure. -/
def compute_planets (p : Provider) (jd : ℚ) :
    List (String × Int) → Except EngineError (List (String × PlanetPosition))
  | [] => .ok []
  | (planet_name, planet_id) :: rest =>
    match calculate_planet_position (p.calcBody jd planet_id) planet_name with
    | .error e => .error e
    | .ok pos =>
      match compute_planets p jd rest with
      | .error e => .error e
      | .ok ps => .ok ((planet_name, pos) :: ps)

/-- `SwissEphemerisEngine.compute`: parse the timestamp, convert to Julian
Day, compute all planets, compute houses and angles, validate, and assemble
the output with metadata. -/
def compute (p : Provider) (input : ChartInput) : Except EngineError ChartOutput :=
  match parse_datetime input.datetime_utc with
  | none => .error (.parseError ("Invalid isoformat string: " ++ input.datetime_utc))
  | some dt =>
    let jd := datetime_to_julian_day p.julday dt
    match compute_planets p jd PLANET_IDS with
    | .error e => .error e
    | .ok planets =>
      match calculate_houses_and_angles (p.housesFn jd input.latitude input.longitude) with
      | .error e => .error e
      | .ok (angles, houses) =>
        match validate_output planets angles houses with
        | .error e => .error e
        | .ok _ =>
          .ok ⟨planets, angles, houses,
               ⟨"Swiss Ephemeris", "pyswisseph", round6 jd, "arcsecond", p.mode⟩⟩

/-- Success flag of an `Except` computation. -/
def isOk {ε α : Type} : Except ε α → Bool
  | .ok _ => true
  | .error _ => false

/-- Concrete normalized planet position used in witnesses. -/
def demoPos : PlanetPosition := ⟨100, "Cancer", 10, true⟩

/-- Concrete planet table used in witnesses: every tracked body at `demoPos`. -/
def demoPlanets : List (String × PlanetPosition) :=
  PLANET_IDS.map (fun pr => (pr.1, demoPos))

/-- Concrete Ascendant used in witnesses. -/
def demoAsc : AnglePosition := ⟨15, "Aries", 15⟩

/-- Concrete Midheaven used in witnesses. -/
def demoMc : AnglePosition := ⟨280, "Capricorn", 10⟩

/-- Concrete angle table used in witnesses. -/
def demoAngles : List (String × AnglePosition) :=
  [("Ascendant", demoAsc), ("Midheaven", demoMc)]

/-- Concrete provider used in witnesses: constant raw values. -/
def demoProvider : Provider :=
  ⟨fun _ _ _ _ => 2443392,
   fun _ _ => .ok ⟨some 100, -1⟩,
   fun _ _ _ => .ok (some 15, some 280),
   "swiss"⟩

/-- Concrete validated input used in witnesses. -/
def demoInput : ChartInput :=
  ⟨"1977-09-05T17:24:00Z", 37.82, -79.82, "W", "tropical", none⟩

/-- The chart output `compute` produces from `demoProvider` and `demoInput`. -/
def demoOutput : ChartOutput :=
  ⟨demoPlanets, demoAngles, ZODIAC_SIGNS,
   ⟨"Swiss Ephemeris", "pyswisseph", 2443392, "arcsecond", "swiss"⟩⟩

end AstroEngine

namespace AstroEngine

theorem pymod_nonneg (x : ℚ) {y : ℚ} (hy : 0 < y) : 0 ≤ pymod x y := by
  unfold pymod
  rw [sub_nonneg, mul_comm]
  calc ((⌊x / y⌋ : ℚ)) * y ≤ (x / y) * y := by
        exact mul_le_mul_of_nonneg_right (Int.floor_le _) (le_of_lt hy)
    _ = x := div_mul_cancel₀ x (ne_of_gt hy)

theorem pymod_lt (x : ℚ) {y : ℚ} (hy : 0 < y) : pymod x y < y := by
  unfold pymod
  rw [sub_lt_iff_lt_add]
  have h := Int.lt_floor_add_one (x / y)
  calc x = (x / y) * y := (div_mul_cancel₀ x (ne_of_gt hy)).symm
    _ < ((⌊x / y⌋ : ℚ) + 1) * y := by
        exact mul_lt_mul_of_pos_right h hy
    _ = y + y * (⌊x / y⌋ : ℚ) := by ring

theorem pymod_eq_self {x y : ℚ} (h0 : 0 ≤ x) (h1 : x < y) : pymod x y = x := by
  have hy : 0 < y := lt_of_le_of_lt h0 h1
  unfold pymod
  have : ⌊x / y⌋ = 0 := by
    rw [Int.floor_eq_zero_iff]
    constructor
    · exact div_nonneg h0 (le_of_lt hy)
    · rw [div_lt_one hy]; exact h1
  rw [this]
  push_cast
  ring

theorem pymod_add_right (x : ℚ) {y : ℚ} (hy : 0 < y) :
    pymod (x + y) y = pymod x y := by
  unfold pymod
  have hyne : y ≠ 0 := ne_of_gt hy
  have : (x + y) / y = x / y + 1 := by
    field_simp
  rw [this, Int.floor_add_one]
  push_cast
  ring


theorem reduce_longitude_eq_pymod (raw : ℚ) :
    reduce_longitude raw = pymod raw 360 := by
  unfold reduce_longitude
  rw [if_neg (not_lt.mpr (pymod_nonneg raw (by norm_num)))]

theorem truncQ_of_nonneg {x : ℚ} (h : 0 ≤ x) : truncQ x = ⌊x⌋ := by
  unfold truncQ
  rw [if_pos h]

theorem sign_index_eq_floor {L : ℚ} (h0 : 0 ≤ L) :
    (((truncQ (L / 30)).toNat : ℤ)) = ⌊L / 30⌋ := by
  have hdiv : 0 ≤ L / 30 := div_nonneg h0 (by norm_num)
  rw [truncQ_of_nonneg hdiv]
  exact Int.toNat_of_nonneg (Int.floor_nonneg.mpr hdiv)

theorem sign_index_le_11 {L : ℚ} (h0 : 0 ≤ L) (h1 : L < 360) :
    (truncQ (L / 30)).toNat ≤ 11 := by
  have hdiv : 0 ≤ L / 30 := div_nonneg h0 (by norm_num)
  rw [truncQ_of_nonneg hdiv]
  have h12 : ⌊L / 30⌋ < 12 := by
    rw [Int.floor_lt]
    rw [div_lt_iff₀ (by norm_num : (0:ℚ) < 30)]
    push_cast
    linarith
  rw [Int.toNat_le]
  omega

/-- C4: for every raw longitude, the wraparound of
`_calculate_planet_position` produces the canonical value
`((raw mod 360) + 360) mod 360`, which lies in `[0, 360)`. -/
theorem c4_longitude_normalization (raw : ℚ) :
    reduce_longitude raw = pymod (pymod raw 360 + 360) 360 ∧
    0 ≤ reduce_longitude raw ∧ reduce_longitude raw < 360 := by
  have h360 : (0 : ℚ) < 360 := by norm_num
  have hself : pymod (pymod raw 360) 360 = pymod raw 360 :=
    pymod_eq_self (pymod_nonneg raw h360) (pymod_lt raw h360)
  refine ⟨?_, ?_, ?_⟩
  · rw [reduce_longitude_eq_pymod, pymod_add_right _ h360, hself]
  · rw [reduce_longitude_eq_pymod]; exact pymod_nonneg raw h360
  · rw [reduce_longitude_eq_pymod]; exact pymod_lt raw h360

/-- C7: for `L ∈ [0, 360)` the decomposition computes
`signIndex = floor(L / 30)` and `degree = L mod 30`; the reconstruction
`signIndex * 30 + degree` reproduces `L` exactly (hence to 6-decimal
precision), and `signIndex ∈ [0, 11]`, `0 ≤ degree < 30`. -/
theorem c7_sign_degree_decomposition (L : ℚ) (h0 : 0 ≤ L) (h1 : L < 360) :
    longitude_to_sign_degree L =
      .ok (ZODIAC_SIGNS.getD (truncQ (L / 30)).toNat "", pymod L 30) ∧
    (((truncQ (L / 30)).toNat : ℤ)) = ⌊L / 30⌋ ∧
    (((truncQ (L / 30)).toNat : ℚ)) * 30 + pymod L 30 = L ∧
    (truncQ (L / 30)).toNat ≤ 11 ∧
    0 ≤ pymod L 30 ∧ pymod L 30 < 30 := by
  have h30 : (0 : ℚ) < 30 := by norm_num
  have hfl := sign_index_eq_floor h0
  refine ⟨?_, hfl, ?_, sign_index_le_11 h0 h1, pymod_nonneg L h30, pymod_lt L h30⟩
  · unfold longitude_to_sign_degree
    rw [if_pos ⟨h0, h1⟩]
  · have hcast : (((truncQ (L / 30)).toNat : ℚ)) = ((⌊L / 30⌋ : ℤ) : ℚ) := by
      exact_mod_cast hfl
    rw [hcast]
    unfold pymod
    ring

/-- C7 witness: the decomposition at `L = 162` gives Virgo at 12 degrees. -/
theorem c7_witness :
    (0 : ℚ) ≤ 162 ∧ (162 : ℚ) < 360 ∧
    longitude_to_sign_degree 162 = .ok ("Virgo", 12) ∧
    ((5 : ℚ)) * 30 + 12 = 162 := by
  have h := c7_sign_degree_decomposition 162 (by norm_num) (by norm_num)
  have h5 : truncQ ((162 : ℚ) / 30) = 5 := by norm_num [truncQ]
  have hmod : pymod 162 30 = 12 := by norm_num [pymod]
  refine ⟨by norm_num, by norm_num, ?_, by norm_num⟩
  rw [h.1, h5, hmod]
  rfl

/-- C10: the decomposition is total on `[0, 360)` — the computed index is at
most 11 so the 12-element sign lookup succeeds — and any longitude outside
`[0, 360)` (including exactly 360) yields a `CalculationError` instead of any
list indexing. -/
theorem c10_decomposition_safety (L : ℚ) :
    (0 ≤ L ∧ L < 360 →
      (truncQ (L / 30)).toNat ≤ 11 ∧
      (ZODIAC_SIGNS.get? (truncQ (L / 30)).toNat).isSome = true ∧
      ∃ sd, longitude_to_sign_degree L = .ok sd) ∧
    (¬ (0 ≤ L ∧ L < 360) →
      ∃ msg, longitude_to_sign_degree L = .error (.calculation msg)) := by
  constructor
  · rintro ⟨h0, h1⟩
    have hle := sign_index_le_11 h0 h1
    refine ⟨hle, ?_, ?_⟩
    · have hlt : (truncQ (L / 30)).toNat < ZODIAC_SIGNS.length := by
        simp only [ZODIAC_SIGNS, List.length]
        omega
      rw [List.get?_eq_get hlt]
      rfl
    · exact ⟨(ZODIAC_SIGNS.getD (truncQ (L / 30)).toNat "", pymod L 30),
        by unfold longitude_to_sign_degree; rw [if_pos ⟨h0, h1⟩]⟩
  · intro h
    exact ⟨"Invalid longitude: must be in [0, 360)",
      by unfold longitude_to_sign_degree; rw [if_neg h]⟩

/-- C10 witness: longitude exactly 360 is rejected with a calculation error,
and longitude 0 is accepted with index 0. -/
theorem c10_witness :
    ((¬ ((0 : ℚ) ≤ 360 ∧ (360 : ℚ) < 360)) ∧
      ∃ msg, longitude_to_sign_degree 360 = .error (.calculation msg)) ∧
    ((truncQ ((0 : ℚ) / 30)).toNat ≤ 11 ∧
      ∃ sd, longitude_to_sign_degree 0 = .ok sd) := by
  have hbad : ¬ ((0 : ℚ) ≤ 360 ∧ (360 : ℚ) < 360) := by norm_num
  have h360 := (c10_decomposition_safety 360).2 hbad
  have h0 := (c10_decomposition_safety 0).1 (by norm_num)
  exact ⟨⟨hbad, h360⟩, h0.1, h0.2.2⟩

/-- C5: a normalized body position is retrograde exactly when the raw speed
is strictly negative; speed exactly 0 is not retrograde. -/
theorem c5_retrograde_rule (lon s : ℚ) (name : String) (pos : PlanetPosition)
    (h : calculate_planet_position (.ok ⟨some lon, s⟩) name = .ok pos) :
    (pos.retrograde = true ↔ s < 0) ∧ (s = 0 → pos.retrograde = false) := by
  have h' : (match longitude_to_sign_degree (reduce_longitude lon) with
      | Except.error e => (Except.error e : Except EngineError PlanetPosition)
      | Except.ok (sign, degree) =>
        Except.ok (PlanetPosition.mk (round6 (reduce_longitude lon)) sign
          (round6 degree) (decide (s < 0)))) =
      Except.ok pos := h
  rcases hh : longitude_to_sign_degree (reduce_longitude lon) with e | ⟨sign, degree⟩
  · rw [hh] at h'
    simp at h'
  · rw [hh] at h'
    simp only [Except.ok.injEq] at h'
    subst h'
    constructor
    · simp [decide_eq_true_iff]
    · intro hs
      subst hs
      simp

/-- C1 helper: the Whole-Sign table over all 144 (ascendant, offset) cases. -/
theorem derive_houses_table :
    ∀ a < 12, ∀ k < 12,
      (derive_houses (ZODIAC_SIGNS.getD a "")).getD k "" =
        ZODIAC_SIGNS.getD ((a + k) % 12) "" := by decide

/-- C1: for every Ascendant sign index `a ∈ [0, 11]` and house number
`n ∈ [1, 12]`, house `n` gets the sign at index `(a + n - 1) mod 12` of the
fixed 12-sign list, and house 1 gets the Ascendant's sign. -/
theorem c1_whole_sign_house_law (a n : Nat) (ha : a ≤ 11) (hn1 : 1 ≤ n)
    (hn2 : n ≤ 12) :
    (derive_houses (ZODIAC_SIGNS.getD a "")).getD (n - 1) "" =
      ZODIAC_SIGNS.getD ((a + n - 1) % 12) "" ∧
    (derive_houses (ZODIAC_SIGNS.getD a "")).getD 0 "" = ZODIAC_SIGNS.getD a "" := by
  have h1 := derive_houses_table a (by omega) (n - 1) (by omega)
  have h0 := derive_houses_table a (by omega) 0 (by omega)
  constructor
  · rw [h1]
    congr 1
    omega
  · rw [h0]
    congr 1
    omega

/-- C1 witness: with the Ascendant in Sagittarius (index 8), house 7 is
Gemini and house 1 is Sagittarius. -/
theorem c1_witness :
    (8 : Nat) ≤ 11 ∧ (1 : Nat) ≤ 7 ∧ (7 : Nat) ≤ 12 ∧
    (derive_houses (ZODIAC_SIGNS.getD 8 "")).getD 6 "" = "Gemini" ∧
    (derive_houses (ZODIAC_SIGNS.getD 8 "")).getD 0 "" = "Sagittarius" := by
  have h := c1_whole_sign_house_law 8 7 (by norm_num) (by norm_num) (by norm_num)
  refine ⟨by norm_num, by norm_num, by norm_num, ?_, ?_⟩
  · exact h.1.trans (by rfl)
  · exact h.2.trans (by rfl)

theorem validate_chart_input_isOk (c : ChartInput) :
    isOk (validate_chart_input c) = true ↔
      (validate_datetime c.datetime_utc = true ∧
       -90 ≤ c.latitude ∧ c.latitude ≤ 90 ∧
       -180 ≤ c.longitude ∧ c.longitude ≤ 180 ∧
       c.house_system = "W" ∧ c.zodiac = "tropical" ∧ c.ayanamsa = none) := by
  unfold validate_chart_input
  split_ifs with h1 h2 h3 h4 h5 h6 <;> simp_all [isOk, not_not]

/-- C6: input validation accepts exactly the inputs with parseable ISO-8601
timestamp, latitude in `[-90, 90]`, longitude in `[-180, 180]`, the
Whole-Sign marker, tropical zodiac, and null ayanamsa; in particular latitude
91, longitude 181, an unparseable timestamp, or a non-null ayanamsa is always
rejected before any computation (the engine only accepts a validated
`ChartInput`). -/
theorem c6_input_validation (c : ChartInput) :
    (isOk (validate_chart_input c) = true ↔
      (validate_datetime c.datetime_utc = true ∧
       -90 ≤ c.latitude ∧ c.latitude ≤ 90 ∧
       -180 ≤ c.longitude ∧ c.longitude ≤ 180 ∧
       c.house_system = "W" ∧ c.zodiac = "tropical" ∧ c.ayanamsa = none)) ∧
    (c.latitude = 91 → isOk (validate_chart_input c) = false) ∧
    (c.longitude = 181 → isOk (validate_chart_input c) = false) ∧
    (validate_datetime c.datetime_utc = false →
      isOk (validate_chart_input c) = false) ∧
    (c.ayanamsa ≠ none → isOk (validate_chart_input c) = false) := by
  refine ⟨validate_chart_input_isOk c, ?_, ?_, ?_, ?_⟩
  · intro h91
    cases hok : isOk (validate_chart_input c) with
    | false => rfl
    | true =>
      have hc := (validate_chart_input_isOk c).mp hok
      rw [h91] at hc
      have := hc.2.2.1
      norm_num at this
  · intro h181
    cases hok : isOk (validate_chart_input c) with
    | false => rfl
    | true =>
      have hc := (validate_chart_input_isOk c).mp hok
      rw [h181] at hc
      have := hc.2.2.2.2.1
      norm_num at this
  · intro hdt
    cases hok : isOk (validate_chart_input c) with
    | false => rfl
    | true =>
      have hc := (validate_chart_input_isOk c).mp hok
      rw [hdt] at hc
      exact absurd hc.1 (by simp)
  · intro hay
    cases hok : isOk (validate_chart_input c) with
    | false => rfl
    | true =>
      have hc := (validate_chart_input_isOk c).mp hok
      exact absurd hc.2.2.2.2.2.2.2 hay

/-- C6 witness: the reference input is accepted; latitude 91, longitude 181,
a malformed timestamp, and a non-null ayanamsa are each rejected. -/
theorem c6_witness :
    isOk (validate_chart_input
      ⟨"1977-09-05T17:24:00Z", 37.82, -79.82, "W", "tropical", none⟩) = true ∧
    isOk (validate_chart_input
      ⟨"1977-09-05T17:24:00Z", 91, -79.82, "W", "tropical", none⟩) = false ∧
    isOk (validate_chart_input
      ⟨"1977-09-05T17:24:00Z", 37.82, 181, "W", "tropical", none⟩) = false ∧
    isOk (validate_chart_input
      ⟨"not-a-date", 37.82, -79.82, "W", "tropical", none⟩) = false ∧
    isOk (validate_chart_input
      ⟨"1977-09-05T17:24:00Z", 37.82, -79.82, "W", "tropical", some "lahiri"⟩) = false := by
  refine ⟨?_, ?_, ?_, ?_, ?_⟩
  · exact (c6_input_validation _).1.mpr
      ⟨by rfl, by norm_num, by norm_num, by norm_num, by norm_num, rfl, rfl, rfl⟩
  · exact (c6_input_validation _).2.1 rfl
  · exact (c6_input_validation _).2.2.1 rfl
  · exact (c6_input_validation _).2.2.2.1 (by rfl)
  · exact (c6_input_validation _).2.2.2.2 (by simp)

/-- C9: the time conversion feeds year/month/day and the fractional hour
`hour + minute/60 + second/3600 + microsecond/3600000000` to the provider's
Julian-Day algorithm, and is a deterministic pure function of the parsed
timestamp. -/
theorem c9_julian_day_conversion (julday : Nat → Nat → Nat → ℚ → ℚ) :
    (∀ dt : CivilDateTime,
      datetime_to_julian_day julday dt =
        julday dt.year dt.month dt.day
          ((dt.hour : ℚ) + (dt.minute : ℚ) / 60 + (dt.second : ℚ) / 3600 +
            (dt.microsecond : ℚ) / 3600000000)) ∧
    (∀ (s : String) (dt1 dt2 : CivilDateTime),
      parse_datetime s = some dt1 → parse_datetime s = some dt2 →
      datetime_to_julian_day julday dt1 = datetime_to_julian_day julday dt2) := by
  constructor
  · intro dt
    rfl
  · intro s dt1 dt2 h1 h2
    rw [h1] at h2
    injection h2 with h
    rw [h]

/-- C9 witness: the reference timestamp (with a fractional second) parses to
microsecond granularity, and two conversions of it agree. -/
theorem c9_witness :
    parse_datetime "1977-09-05T17:24:30.25Z" =
      some (CivilDateTime.mk 1977 9 5 17 24 30 250000) ∧
    datetime_to_julian_day (fun _ _ _ _ => 2443392)
        (CivilDateTime.mk 1977 9 5 17 24 30 250000) =
      datetime_to_julian_day (fun _ _ _ _ => 2443392)
        (CivilDateTime.mk 1977 9 5 17 24 30 250000) := by
  refine ⟨by rfl, ?_⟩
  exact (c9_julian_day_conversion (fun _ _ _ _ => 2443392)).2
    "1977-09-05T17:24:30.25Z" _ _ (by rfl) (by rfl)

theorem check_planets_ok (ps : List (String × PlanetPosition)) :
    check_planets ps = .ok () ↔
      ∀ pr ∈ ps, (0 ≤ pr.2.longitude ∧ pr.2.longitude < 360) ∧
        (0 ≤ pr.2.degree ∧ pr.2.degree < 30) := by
  induction ps with
  | nil => simp [check_planets]
  | cons hd tl ih =>
    obtain ⟨name, pos⟩ := hd
    simp only [check_planets, List.forall_mem_cons]
    split_ifs with h1 h2 <;> simp_all [not_not]

theorem check_planets_error (ps : List (String × PlanetPosition))
    (e : EngineError) (h : check_planets ps = .error e) :
    ∃ m, e = .validation m := by
  induction ps with
  | nil => simp [check_planets] at h
  | cons hd tl ih =>
    obtain ⟨name, pos⟩ := hd
    simp only [check_planets] at h
    split_ifs at h with h1 h2
    all_goals first
      | exact ih h
      | (injection h with hinj; exact ⟨_, hinj.symm⟩)

theorem check_angles_ok (as : List (String × AnglePosition)) :
    check_angles as = .ok () ↔
      ∀ ar ∈ as, 0 ≤ ar.2.longitude ∧ ar.2.longitude < 360 := by
  induction as with
  | nil => simp [check_angles]
  | cons hd tl ih =>
    obtain ⟨name, pos⟩ := hd
    simp only [check_angles, List.forall_mem_cons]
    split_ifs with h1 <;> simp_all [not_not]

theorem check_angles_error (as : List (String × AnglePosition))
    (e : EngineError) (h : check_angles as = .error e) :
    ∃ m, e = .validation m := by
  induction as with
  | nil => simp [check_angles] at h
  | cons hd tl ih =>
    obtain ⟨name, pos⟩ := hd
    simp only [check_angles] at h
    split_ifs at h with h1
    all_goals first
      | exact ih h
      | (injection h with hinj; exact ⟨_, hinj.symm⟩)

theorem check_houses_ok (asc_index : Nat) (houses : List String)
    (ns : List Nat) :
    check_houses asc_index houses ns = .ok () ↔
      ∀ n ∈ ns, houses.getD (n - 1) "" =
        ZODIAC_SIGNS.getD ((asc_index + n - 1) % 12) "" := by
  induction ns with
  | nil => simp [check_houses]
  | cons n tl ih =>
    simp only [check_houses, List.forall_mem_cons]
    split_ifs with h1
    · constructor
      · intro h; simp at h
      · rintro ⟨he, _⟩; exact absurd he.symm h1
    · have h1' := not_ne_iff.mp h1
      rw [ih]
      constructor
      · intro h; exact ⟨h1'.symm, h⟩
      · rintro ⟨_, h⟩; exact h

theorem check_houses_error (asc_index : Nat) (houses : List String)
    (ns : List Nat) (e : EngineError)
    (h : check_houses asc_index houses ns = .error e) :
    ∃ m, e = .validation m := by
  induction ns with
  | nil => simp [check_houses] at h
  | cons n tl ih =>
    simp only [check_houses] at h
    split_ifs at h with h1
    all_goals first
      | exact ih h
      | (injection h with hinj; exact ⟨_, hinj.symm⟩)

theorem validate_output_ok_iff (planets : List (String × PlanetPosition))
    (angles : List (String × AnglePosition)) (houses : List String)
    (asc : AnglePosition) (hasc : angles.lookup "Ascendant" = some asc) :
    validate_output planets angles houses = .ok () ↔
      (check_planets planets = .ok () ∧ check_angles angles = .ok () ∧
       asc.sign = houses.getD 0 "" ∧
       check_houses (ZODIAC_SIGNS.indexOf asc.sign) houses
         (List.range' 1 12) = .ok ()) := by
  unfold validate_output
  rcases hp : check_planets planets with e | u
  · simp [hp]
  · obtain ⟨⟩ := u
    simp only [hp]
    rcases ha : check_angles angles with e | u2
    · simp [ha]
    · obtain ⟨⟩ := u2
      simp only [ha, hasc]
      split_ifs with hne
      · simp only [hne]
        constructor
        · intro h; simp at h
        · rintro ⟨-, -, heq, -⟩; exact heq.elim
      · have heq := not_ne_iff.mp hne
        simp [heq]

theorem validate_output_error_classified
    (planets : List (String × PlanetPosition))
    (angles : List (String × AnglePosition)) (houses : List String)
    (asc : AnglePosition) (hasc : angles.lookup "Ascendant" = some asc) :
    ∀ e, validate_output planets angles houses = .error e →
      ∃ m, e = .validation m := by
  intro e h
  unfold validate_output at h
  rcases hp : check_planets planets with e1 | u
  · simp only [hp] at h
    injection h with hinj
    exact hinj ▸ check_planets_error planets e1 hp
  · obtain ⟨⟩ := u
    simp only [hp] at h
    rcases ha : check_angles angles with e2 | u2
    · simp only [ha] at h
      injection h with hinj
      exact hinj ▸ check_angles_error angles e2 ha
    · obtain ⟨⟩ := u2
      simp only [ha, hasc] at h
      split_ifs at h with hne
      · injection h with hinj
        exact ⟨_, hinj.symm⟩
      · exact check_houses_error _ houses _ e h

/-- C2: the output validator succeeds exactly when every planet longitude is
in `[0, 360)` and degree in `[0, 30)`, every angle longitude is in `[0, 360)`,
house 1 carries the Ascendant's sign, and every house `n` carries the sign at
cyclic offset `(ascendantSignIndex + n - 1) mod 12`; any violation is
reported as a ValidationError. -/
theorem c2_output_validator (planets : List (String × PlanetPosition))
    (angles : List (String × AnglePosition)) (houses : List String)
    (asc : AnglePosition) (hlen : houses.length = 12)
    (hasc : angles.lookup "Ascendant" = some asc)
    (hmem : asc.sign ∈ ZODIAC_SIGNS) :
    (validate_output planets angles houses = .ok () ↔
      ((∀ pr ∈ planets, (0 ≤ pr.2.longitude ∧ pr.2.longitude < 360) ∧
          (0 ≤ pr.2.degree ∧ pr.2.degree < 30)) ∧
       (∀ ar ∈ angles, 0 ≤ ar.2.longitude ∧ ar.2.longitude < 360) ∧
       houses.getD 0 "" = asc.sign ∧
       (∀ n, 1 ≤ n → n ≤ 12 →
         houses.getD (n - 1) "" =
           ZODIAC_SIGNS.getD ((ZODIAC_SIGNS.indexOf asc.sign + n - 1) % 12) ""))) ∧
    (∀ e, validate_output planets angles houses = .error e →
      ∃ m, e = .validation m) := by
  constructor
  · rw [validate_output_ok_iff planets angles houses asc hasc,
      check_planets_ok, check_angles_ok, check_houses_ok]
    constructor
    · rintro ⟨hP, hA, h1, hH⟩
      refine ⟨hP, hA, h1.symm, ?_⟩
      intro n hn1 hn2
      exact hH n (by rw [List.mem_range'_1]; omega)
    · rintro ⟨hP, hA, h1, hH⟩
      refine ⟨hP, hA, h1.symm, ?_⟩
      intro n hn
      rw [List.mem_range'_1] at hn
      exact hH n hn.1 (by omega)
  · exact validate_output_error_classified planets angles houses asc hasc

/-- C2 witness: a concrete planet/angle/house assembly with the Ascendant in
Aries passes the validator. -/
theorem c2_witness :
    (ZODIAC_SIGNS : List String).length = 12 ∧
    demoAngles.lookup "Ascendant" = some demoAsc ∧
    demoAsc.sign ∈ ZODIAC_SIGNS ∧
    validate_output demoPlanets demoAngles ZODIAC_SIGNS = .ok () := by
  refine ⟨by rfl, by rfl, by decide, ?_⟩
  apply (c2_output_validator demoPlanets demoAngles ZODIAC_SIGNS demoAsc
    (by rfl) (by rfl) (by decide)).1.mpr
  refine ⟨?_, ?_, by rfl, ?_⟩
  · intro pr hpr
    have hp : pr.2 = demoPos := by
      fin_cases hpr <;> rfl
    rw [hp]
    norm_num [demoPos]
  · intro ar har
    have : ar.2 = demoAsc ∨ ar.2 = demoMc := by
      fin_cases har
      · exact Or.inl rfl
      · exact Or.inr rfl
    rcases this with h | h <;> rw [h] <;> norm_num [demoAsc, demoMc]
  · intro n hn1 hn2
    have hidx : List.indexOf demoAsc.sign ZODIAC_SIGNS = 0 := by rfl
    rw [hidx]
    interval_cases n <;> rfl

theorem compute_planets_keys (p : Provider) (jd : ℚ)
    (l : List (String × Int)) (ys : List (String × PlanetPosition))
    (h : compute_planets p jd l = .ok ys) :
    ys.map Prod.fst = l.map Prod.fst := by
  induction l generalizing ys with
  | nil =>
    simp only [compute_planets, Except.ok.injEq] at h
    subst h
    rfl
  | cons hd tl ih =>
    obtain ⟨name, pid⟩ := hd
    simp only [compute_planets] at h
    rcases hc : calculate_planet_position (p.calcBody jd pid) name with e | pos
    · simp only [hc] at h
      exact (Except.noConfusion h)
    · simp only [hc] at h
      rcases hr : compute_planets p jd tl with e2 | ps
      · simp only [hr] at h
        exact (Except.noConfusion h)
      · simp only [hr, Except.ok.injEq] at h
        subst h
        simp [ih ps hr]

theorem houses_angles_shape (raw : Except String (Option ℚ × Option ℚ))
    (angles : List (String × AnglePosition)) (houses : List String)
    (h : calculate_houses_and_angles raw = .ok (angles, houses)) :
    angles.map Prod.fst = ["Ascendant", "Midheaven"] ∧ houses.length = 12 := by
  unfold calculate_houses_and_angles at h
  rcases raw with e | ⟨ascOpt, mcOpt⟩
  · cases h
  · rcases ascOpt with _ | ascRaw
    · cases h
    · rcases mcOpt with _ | mcRaw
      · cases h
      · rcases ha : longitude_to_sign_degree (pymod ascRaw 360) with e | ⟨asc_sign, asc_deg⟩
        · simp only [ha] at h
          exact (Except.noConfusion h)
        · simp only [ha] at h
          rcases hm : longitude_to_sign_degree (pymod mcRaw 360) with e | ⟨mc_sign, mc_deg⟩
          · simp only [hm] at h
            exact (Except.noConfusion h)
          · simp only [hm, Except.ok.injEq, Prod.mk.injEq] at h
            obtain ⟨hang, hhou⟩ := h
            constructor
            · rw [← hang]
              rfl
            · rw [← hhou]
              simp [derive_houses]

theorem compute_ok_inv (p : Provider) (input : ChartInput) (out : ChartOutput)
    (h : compute p input = .ok out) :
    ∃ dt planets angles houses,
      parse_datetime input.datetime_utc = some dt ∧
      compute_planets p (datetime_to_julian_day p.julday dt) PLANET_IDS =
        .ok planets ∧
      calculate_houses_and_angles
        (p.housesFn (datetime_to_julian_day p.julday dt)
          input.latitude input.longitude) = .ok (angles, houses) ∧
      validate_output planets angles houses = .ok () ∧
      out = ⟨planets, angles, houses,
        ⟨"Swiss Ephemeris", "pyswisseph",
         round6 (datetime_to_julian_day p.julday dt), "arcsecond", p.mode⟩⟩ := by
  unfold compute at h
  rcases hdt : parse_datetime input.datetime_utc with _ | dt
  · simp only [hdt] at h
    exact (Except.noConfusion h)
  · simp only [hdt] at h
    rcases hcp : compute_planets p (datetime_to_julian_day p.julday dt)
        PLANET_IDS with e | planets
    · simp only [hcp] at h
      exact (Except.noConfusion h)
    · simp only [hcp] at h
      rcases hha : calculate_houses_and_angles
          (p.housesFn (datetime_to_julian_day p.julday dt)
            input.latitude input.longitude) with e | pr
      · simp only [hha] at h
        exact (Except.noConfusion h)
      · obtain ⟨angles, houses⟩ := pr
        simp only [hha] at h
        rcases hv : validate_output planets angles houses with e | u
        · simp only [hv] at h
          exact (Except.noConfusion h)
        · obtain ⟨⟩ := u
          simp only [hv, Except.ok.injEq] at h
          exact ⟨dt, planets, angles, houses, rfl, hcp, hha, hv, h.symm⟩

/-- C3: for every provider behaviour and every input, `compute` either
returns a complete chart — positions for exactly the eleven tracked bodies,
exactly the two angles Ascendant and Midheaven, and a full 12-entry house
table — or fails entirely with an error; no partial chart exists. -/
theorem c3_complete_or_error (p : Provider) (input : ChartInput) :
    (∃ out, compute p input = .ok out ∧
      out.planets.map Prod.fst =
        ["Sun", "Moon", "Mercury", "Venus", "Mars", "Jupiter", "Saturn",
         "Uranus", "Neptune", "Pluto", "TrueNode"] ∧
      out.angles.map Prod.fst = ["Ascendant", "Midheaven"] ∧
      out.houses.length = 12) ∨
    (∃ e, compute p input = .error e) := by
  rcases hc : compute p input with e | out
  · right
    exact ⟨e, rfl⟩
  · left
    obtain ⟨dt, planets, angles, houses, hdt, hcp, hha, hv, hout⟩ :=
      compute_ok_inv p input out hc
    subst hout
    refine ⟨_, rfl, ?_, ?_, ?_⟩
    · exact (compute_planets_keys p _ PLANET_IDS planets hcp).trans (by rfl)
    · exact (houses_angles_shape _ angles houses hha).1
    · exact (houses_angles_shape _ angles houses hha).2

/-- C8: a successful chart's metadata surfaces the provider's precision mode
unmodified as decided at initialization, the fixed precision label, and the
Julian Day used; a reduced-precision (moshier) run is never reported as the
full-precision (swiss) mode. -/
theorem c8_metadata_mode (se1_count : Nat) (p : Provider) (input : ChartInput)
    (out : ChartOutput) (hmode : p.mode = ephemeris_mode_of se1_count)
    (h : compute p input = .ok out) :
    out.metadata.ephemeris_mode = p.mode ∧
    out.metadata.precision = "arcsecond" ∧
    out.metadata.ephemeris = "Swiss Ephemeris" ∧
    (∃ dt, parse_datetime input.datetime_utc = some dt ∧
      out.metadata.julian_day = round6 (datetime_to_julian_day p.julday dt)) ∧
    (se1_count = 0 →
      out.metadata.ephemeris_mode = "moshier" ∧
      out.metadata.ephemeris_mode ≠ "swiss") ∧
    (se1_count ≠ 0 → out.metadata.ephemeris_mode = "swiss") := by
  obtain ⟨dt, planets, angles, houses, hdt, hcp, hha, hv, hout⟩ :=
    compute_ok_inv p input out h
  subst hout
  refine ⟨rfl, rfl, rfl, ⟨dt, hdt, rfl⟩, ?_, ?_⟩
  · intro h0
    rw [hmode]
    unfold ephemeris_mode_of
    rw [if_pos h0]
    exact ⟨rfl, by simp⟩
  · intro h0
    rw [hmode]
    unfold ephemeris_mode_of
    rw [if_neg h0]

theorem demo_planet_eval (jd : ℚ) (planet_id : Int) (name : String) :
    calculate_planet_position (demoProvider.calcBody jd planet_id) name =
      .ok demoPos := by
  have hred : reduce_longitude 100 = 100 := by
    rw [reduce_longitude_eq_pymod]
    norm_num [pymod]
  have hdec : longitude_to_sign_degree (100 : ℚ) = .ok ("Cancer", 10) := by
    have h3 : truncQ ((100 : ℚ) / 30) = 3 := by norm_num [truncQ]
    rw [longitude_to_sign_degree, if_pos (by norm_num), h3]
    norm_num [pymod]
    rfl
  show (match longitude_to_sign_degree (reduce_longitude 100) with
    | Except.error e => (Except.error e : Except EngineError PlanetPosition)
    | Except.ok (sign, degree) =>
      Except.ok (PlanetPosition.mk (round6 (reduce_longitude 100)) sign
        (round6 degree) (decide ((-1 : ℚ) < 0)))) = Except.ok demoPos
  rw [hred, hdec]
  have h6a : round6 (100 : ℚ) = 100 := by norm_num [round6, roundHalfEven]
  have h6b : round6 (10 : ℚ) = 10 := by norm_num [round6, roundHalfEven]
  have hdcd : decide ((-1 : ℚ) < 0) = true := decide_eq_true (by norm_num)
  simp only [h6a, h6b, hdcd]
  rfl

theorem demo_compute_planets (jd : ℚ) :
    compute_planets demoProvider jd PLANET_IDS = .ok demoPlanets := by
  simp only [PLANET_IDS, compute_planets, demo_planet_eval]
  rfl

theorem demo_houses_angles :
    calculate_houses_and_angles (.ok (some 15, some 280)) =
      .ok (demoAngles, ZODIAC_SIGNS) := by
  have hp15 : pymod 15 360 = 15 := by norm_num [pymod]
  have hp280 : pymod 280 360 = 280 := by norm_num [pymod]
  have hd15 : longitude_to_sign_degree (15 : ℚ) = .ok ("Aries", 15) := by
    have h0 : truncQ ((15 : ℚ) / 30) = 0 := by norm_num [truncQ]
    rw [longitude_to_sign_degree, if_pos (by norm_num), h0]
    norm_num [pymod]
    rfl
  have hd280 : longitude_to_sign_degree (280 : ℚ) = .ok ("Capricorn", 10) := by
    have h9 : truncQ ((280 : ℚ) / 30) = 9 := by norm_num [truncQ]
    rw [longitude_to_sign_degree, if_pos (by norm_num), h9]
    norm_num [pymod]
    rfl
  show (match longitude_to_sign_degree (pymod 15 360) with
    | Except.error e =>
      (Except.error e :
        Except EngineError (List (String × AnglePosition) × List String))
    | Except.ok (asc_sign, asc_degree) =>
      match longitude_to_sign_degree (pymod 280 360) with
      | Except.error e => Except.error e
      | Except.ok (mc_sign, mc_degree) =>
        Except.ok
          ([("Ascendant", AnglePosition.mk (round6 (pymod 15 360)) asc_sign
              (round6 asc_degree)),
            ("Midheaven", AnglePosition.mk (round6 (pymod 280 360)) mc_sign
              (round6 mc_degree))],
           derive_houses asc_sign)) = .ok (demoAngles, ZODIAC_SIGNS)
  rw [hp15, hp280, hd15, hd280]
  have h6a : round6 (15 : ℚ) = 15 := by norm_num [round6, roundHalfEven]
  have h6b : round6 (280 : ℚ) = 280 := by norm_num [round6, roundHalfEven]
  have h6c : round6 (10 : ℚ) = 10 := by norm_num [round6, roundHalfEven]
  simp only [h6a, h6b, h6c]
  rfl

theorem demo_validate :
    validate_output demoPlanets demoAngles ZODIAC_SIGNS = .ok () := by
  apply (validate_output_ok_iff demoPlanets demoAngles ZODIAC_SIGNS demoAsc
    (by rfl)).mpr
  refine ⟨(check_planets_ok _).mpr ?_, (check_angles_ok _).mpr ?_, by rfl,
    (check_houses_ok _ _ _).mpr ?_⟩
  · intro pr hpr
    have hp : pr.2 = demoPos := by
      fin_cases hpr <;> rfl
    rw [hp]
    norm_num [demoPos]
  · intro ar har
    have hcase : ar.2 = demoAsc ∨ ar.2 = demoMc := by
      fin_cases har
      · exact Or.inl rfl
      · exact Or.inr rfl
    rcases hcase with hh | hh <;> rw [hh] <;> norm_num [demoAsc, demoMc]
  · intro n hn
    rw [List.mem_range'_1] at hn
    have hidx : ZODIAC_SIGNS.indexOf demoAsc.sign = 0 := by rfl
    rw [hidx]
    obtain ⟨h1, h2⟩ := hn
    interval_cases n <;> rfl

theorem demo_compute : compute demoProvider demoInput = .ok demoOutput := by
  have hdt : parse_datetime demoInput.datetime_utc =
      some (CivilDateTime.mk 1977 9 5 17 24 0 0) := by rfl
  have hjd : datetime_to_julian_day demoProvider.julday
      (CivilDateTime.mk 1977 9 5 17 24 0 0) = 2443392 := rfl
  have hfn : demoProvider.housesFn 2443392 demoInput.latitude
      demoInput.longitude = .ok (some 15, some 280) := rfl
  unfold compute
  simp only [hdt, hjd, demo_compute_planets, hfn, demo_houses_angles,
    demo_validate]
  have h6 : round6 (2443392 : ℚ) = 2443392 := by
    norm_num [round6, roundHalfEven]
  rw [h6]
  rfl

/-- C5 witness: a raw position with speed `-1` yields a retrograde position;
the flag`s rule is checked at the concrete input. -/
theorem c5_witness :
    calculate_planet_position (.ok ⟨some 100, -1⟩) "Mars" = .ok demoPos ∧
    (demoPos.retrograde = true ↔ ((-1 : ℚ) < 0)) ∧
    demoPos.retrograde = true := by
  have heval : calculate_planet_position (.ok ⟨some 100, -1⟩) "Mars" =
      .ok demoPos := demo_planet_eval 0 0 "Mars"
  have h := c5_retrograde_rule 100 (-1) "Mars" demoPos heval
  exact ⟨heval, h.1, h.1.mpr (by norm_num)⟩

/-- C8 witness: a provider initialized with 3 ephemeris files runs in swiss
mode and the demo chart's metadata surfaces it with the fixed label. -/
theorem c8_witness :
    demoProvider.mode = ephemeris_mode_of 3 ∧
    compute demoProvider demoInput = .ok demoOutput ∧
    demoOutput.metadata.ephemeris_mode = demoProvider.mode ∧
    demoOutput.metadata.precision = "arcsecond" := by
  have hmode : demoProvider.mode = ephemeris_mode_of 3 := by rfl
  have h := c8_metadata_mode 3 demoProvider demoInput demoOutput hmode
    demo_compute
  exact ⟨hmode, demo_compute, h.1, h.2.1⟩

end AstroEngine
